import Mathlib

/-
Verification of the retry middleware (`src/middleware/RetryHandler.ts`).

The development shallowly embeds the RetryHandler class and the JavaScript
runtime behaviour it relies on:

* JavaScript numbers that can arise in the delay computation are modelled by
  `JSNum` (NaN, the two infinities, and finite values as rationals); the
  relevant `Math` operations (`Math.round`, `Math.min`) and string-to-number
  coercion (`Number(string)`) are modelled explicitly, including NaN
  propagation.
* `Date.parse` / `new Date(s).getTime()` and `Date.now()` are
  implementation-defined and are therefore passed in as oracle parameters
  (`dateParse`, `now`); `Math.random()` likewise becomes a `rand` oracle.
* The pieces of the repository that are imported by `RetryHandler.ts` but are
  not part of the provided sources (`RetryHandlerOptions`, `MiddlewareUtil`,
  `MiddlewareControl`, `Context`, the `Middleware` interface) are modelled
  from the specification; each such definition carries a doc comment saying
  so.
* The delegated next middleware is an oracle `next : Nat → Except Nat
  Response` giving, for each invocation index, either a thrown failure
  (identified by a number, so that "propagated unchanged" is expressible) or
  a successfully obtained response.

Field accesses on `undefined` (which throw `TypeError` in JavaScript) are
modelled by `Except JsError`; `RetryHandler.isBuffered` is the one place in
the source where such an access can happen (`options.method` when the request
is a plain URL string and the request options are absent).
-/

set_option autoImplicit false

/-! ## JavaScript number model -/

/-- A JavaScript number as it can arise in the delay computation: NaN, one of
the two infinities, or a finite value (modelled as a rational; every value
actually produced by the retry handler is exactly representable). -/
inductive JSNum where
  | nan
  | posInf
  | negInf
  | fin (q : ℚ)
  deriving DecidableEq, Repr

/-- ECMAScript `Math.round` on a finite value: round half toward positive
infinity, i.e. the floor of `q + 1/2`. -/
def jsRound (q : ℚ) : ℤ := ⌊q + 1 / 2⌋

/-- ECMAScript `Math.min` on two values: NaN if either argument is NaN,
otherwise the smaller argument (with the infinities ordered as usual). -/
def jsMin : JSNum → JSNum → JSNum
  | .nan, _ => .nan
  | _, .nan => .nan
  | .negInf, _ => .negInf
  | _, .negInf => .negInf
  | .posInf, b => b
  | a, .posInf => a
  | .fin a, .fin b => .fin (min a b)

/-- The ECMAScript `≤` comparison: false whenever either side is NaN. -/
def jsLe : JSNum → JSNum → Bool
  | .nan, _ => false
  | _, .nan => false
  | .negInf, _ => true
  | .posInf, .posInf => true
  | .posInf, _ => false
  | .fin _, .posInf => true
  | .fin _, .negInf => false
  | .fin a, .fin b => decide (a ≤ b)

/-- Characters trimmed from both ends by ECMAScript string-to-number
coercion (the common StrWhiteSpace characters). -/
def isJsWhiteSpace (c : Char) : Bool :=
  c = ' ' || c = '\t' || c = '\n' || c = '\r' || c = '\x0b' || c = '\x0c' ||
    c = '\u00A0' || c = '\uFEFF'

/-- Trim JavaScript whitespace from both ends of a character list. -/
def trimJsWs (cs : List Char) : List Char :=
  ((cs.dropWhile isJsWhiteSpace).reverse.dropWhile isJsWhiteSpace).reverse

/-- The numeric value of a decimal digit character, if it is one. -/
def decDigit? (c : Char) : Option ℕ :=
  if c.isDigit then some (c.toNat - 48) else none

/-- The numeric value of a hexadecimal digit character, if it is one. -/
def hexDigit? (c : Char) : Option ℕ :=
  if c.isDigit then some (c.toNat - 48)
  else if 'a' ≤ c ∧ c ≤ 'f' then some (c.toNat - 87)
  else if 'A' ≤ c ∧ c ≤ 'F' then some (c.toNat - 55)
  else none

/-- The numeric value of an octal digit character, if it is one. -/
def octDigit? (c : Char) : Option ℕ :=
  if '0' ≤ c ∧ c ≤ '7' then some (c.toNat - 48) else none

/-- The numeric value of a binary digit character, if it is one. -/
def binDigit? (c : Char) : Option ℕ :=
  if c = '0' ∨ c = '1' then some (c.toNat - 48) else none

/-- Read a nonempty all-digit string in the given base; `none` when the
string is empty or contains a non-digit. -/
def readDigits (base : ℕ) (dig : Char → Option ℕ) (cs : List Char) : Option ℕ :=
  match cs with
  | [] => none
  | _ =>
    cs.foldl
      (fun acc c =>
        match acc, dig c with
        | some a, some d => some (a * base + d)
        | _, _ => none)
      (some 0)

/-- Split a character list at the first character satisfying `p`; `none`
when no character satisfies it. -/
def splitFirst (p : Char → Bool) : List Char → Option (List Char × List Char)
  | [] => none
  | c :: rest =>
    if p c then some ([], rest)
    else
      match splitFirst p rest with
      | some (l, r) => some (c :: l, r)
      | none => none

/-- Read an unsigned decimal literal (`digits`, `digits.digits`, `digits.`
or `.digits`), as ECMAScript does inside a StrDecimalLiteral. -/
def readUnsignedDecimal (cs : List Char) : Option ℚ :=
  match splitFirst (fun c => c = '.') cs with
  | none =>
    match readDigits 10 decDigit? cs with
    | some n => some (n : ℚ)
    | none => none
  | some (ip, fp) =>
    if ip.isEmpty ∧ fp.isEmpty then none
    else if ip.isEmpty then
      match readDigits 10 decDigit? fp with
      | some f => some ((f : ℚ) / (10 : ℚ) ^ fp.length)
      | none => none
    else if fp.isEmpty then
      match readDigits 10 decDigit? ip with
      | some n => some (n : ℚ)
      | none => none
    else
      match readDigits 10 decDigit? ip, readDigits 10 decDigit? fp with
      | some n, some f => some ((n : ℚ) + (f : ℚ) / (10 : ℚ) ^ fp.length)
      | _, _ => none

/-- Read an optionally signed nonempty decimal integer (used for the
exponent part of a decimal literal). -/
def readSignedInt (cs : List Char) : Option ℤ :=
  match cs with
  | '+' :: rest => (readDigits 10 decDigit? rest).map (fun n => (n : ℤ))
  | '-' :: rest => (readDigits 10 decDigit? rest).map (fun n => -(n : ℤ))
  | _ => (readDigits 10 decDigit? cs).map (fun n => (n : ℤ))

/-- Read an unsigned decimal literal with an optional `e`/`E` exponent. -/
def readDecWithExp (cs : List Char) : Option ℚ :=
  match splitFirst (fun c => c = 'e' || c = 'E') cs with
  | none => readUnsignedDecimal cs
  | some (m, e) =>
    if m.isEmpty then none
    else
      match readUnsignedDecimal m, readSignedInt e with
      | some q, some ex => some (q * (10 : ℚ) ^ ex)
      | _, _ => none

/-- The unsigned part of a decimal string-to-number coercion: `Infinity` or
a decimal literal; anything else is NaN. The sign is `1` or `-1`. -/
def jsUnsignedPart (sign : ℚ) (cs : List Char) : JSNum :=
  if cs = "Infinity".toList then (if sign = 1 then .posInf else .negInf)
  else
    match readDecWithExp cs with
    | some q => .fin (sign * q)
    | none => .nan

/-- A signed decimal string-to-number coercion (sign characters only apply
to decimal literals and `Infinity` in ECMAScript). -/
def jsStrDecimal (cs : List Char) : JSNum :=
  match cs with
  | '+' :: rest => jsUnsignedPart 1 rest
  | '-' :: rest => jsUnsignedPart (-1) rest
  | _ => jsUnsignedPart 1 cs

/-- Lift the result of reading a nonnegative integer literal to `JSNum`. -/
def toJSNum : Option ℕ → JSNum
  | some n => .fin (n : ℚ)
  | none => .nan

/-- ECMAScript string-to-number coercion `Number(s)` for strings: trim
whitespace; empty means `0`; `0x`/`0o`/`0b` prefixes introduce non-decimal
integer literals; otherwise an optionally signed decimal literal or
`Infinity`; anything else is NaN. -/
def jsToNumber (s : String) : JSNum :=
  let cs := trimJsWs s.toList
  if cs.isEmpty then .fin 0
  else
    match cs with
    | '0' :: 'x' :: rest => toJSNum (readDigits 16 hexDigit? rest)
    | '0' :: 'X' :: rest => toJSNum (readDigits 16 hexDigit? rest)
    | '0' :: 'o' :: rest => toJSNum (readDigits 8 octDigit? rest)
    | '0' :: 'O' :: rest => toJSNum (readDigits 8 octDigit? rest)
    | '0' :: 'b' :: rest => toJSNum (readDigits 2 binDigit? rest)
    | '0' :: 'B' :: rest => toJSNum (readDigits 2 binDigit? rest)
    | _ => jsStrDecimal cs

example : jsToNumber "2" = .fin 2 := by
  simp [jsToNumber, trimJsWs, isJsWhiteSpace, jsStrDecimal, jsUnsignedPart, readDecWithExp,
    readUnsignedDecimal, readSignedInt, readDigits, splitFirst, decDigit?, toJSNum]
example : jsToNumber " 50 " = .fin 50 := by
  simp [jsToNumber, trimJsWs, isJsWhiteSpace, jsStrDecimal, jsUnsignedPart, readDecWithExp,
    readUnsignedDecimal, readSignedInt, readDigits, splitFirst, decDigit?, toJSNum]
example : jsToNumber "2.5" = .fin (5 / 2) := by
  simp [jsToNumber, trimJsWs, isJsWhiteSpace, jsStrDecimal, jsUnsignedPart, readDecWithExp,
    readUnsignedDecimal, readSignedInt, readDigits, splitFirst, decDigit?, toJSNum]
  norm_num
example : jsToNumber "" = .fin 0 := by rfl
example : jsToNumber "xyz" = .nan := by rfl
example : jsToNumber "Infinity" = .posInf := by rfl
example : jsToNumber "0x10" = .fin 16 := by rfl
example : jsRound (7 / 2) = 4 := by norm_num [jsRound]
example : jsRound (1 / 2) = 1 := by norm_num [jsRound]
example : jsRound 0 = 0 := by norm_num [jsRound]
example : jsRound (-(2 : ℚ) / 5) = 0 := by norm_num [jsRound]

/-! ## HTTP data model -/

/-- The `RequestInfo` union of the fetch API: either a plain URL string or a
rich `Request` object (of which only the method and the headers matter to
the retry handler; a `Request` object always has a concrete method string). -/
inductive RequestInfo where
  | url (s : String)
  | request (method : String) (headers : List (String × String))

/-- ASCII lowercasing of a single character (header names are ASCII). -/
def asciiLower (c : Char) : Char :=
  if 'A' ≤ c ∧ c ≤ 'Z' then Char.ofNat (c.toNat + 32) else c

/-- The case-insensitive comparison key of a header name. -/
def nameKey (s : String) : List Char := s.toList.map asciiLower

/-- Case-insensitive header lookup, as `Headers.get` of the fetch API
(header names are case-insensitive; values are returned verbatim). -/
def headersGet (hs : List (String × String)) (name : String) : Option String :=
  (hs.find? (fun p => nameKey p.1 == nameKey name)).map (fun p => p.2)

/-- Case-insensitive header update: replace the value when the name is
already present, append otherwise. -/
def headersSet (hs : List (String × String)) (name value : String) :
    List (String × String) :=
  if hs.any (fun p => nameKey p.1 == nameKey name) then
    hs.map (fun p => if nameKey p.1 == nameKey name then (p.1, value) else p)
  else hs ++ [(name, value)]

/-- Modelled from the spec: the `FetchOptions` of a request (the repository
file `IFetchOptions.ts` is not under `src/`); only the method and the
headers are relevant to the retry handler, and either may be absent. -/
structure FetchOptions where
  method : Option String := none
  headers : Option (List (String × String)) := none

/-- A response, as the retry handler sees it: a status code and headers
that may be absent (the source guards `response.headers !== undefined`). -/
structure Response where
  status : ℕ
  headers : Option (List (String × String))

/-- Header lookup on a response, `null` when the headers object is absent or
the header is missing. -/
def responseHeadersGet (resp : Response) (name : String) : Option String :=
  match resp.headers with
  | some hs => headersGet hs name
  | none => none

/-- Modelled from the spec: the header accessor of `MiddlewareUtil.ts` (not
under `src/`) reads a named header regardless of whether the request is a
plain URL description (headers live in the request options) or a rich
`Request` object (headers live on the object); absent anywhere means `null`. -/
def getRequestHeader (request : RequestInfo) (options : Option FetchOptions)
    (name : String) : Option String :=
  match request with
  | .request _ hs => headersGet hs name
  | .url _ =>
    match options with
    | some o =>
      match o.headers with
      | some hs => headersGet hs name
      | none => none
    | none => none

/-- Modelled from the spec: the header writer of `MiddlewareUtil.ts` (not
under `src/`) sets a named header on the rich `Request` object, or in the
request options when the request is a plain URL description; the updated
request and options are returned (the source mutates them in place). -/
def setRequestHeader (request : RequestInfo) (options : Option FetchOptions)
    (name value : String) : RequestInfo × Option FetchOptions :=
  match request with
  | .request m hs => (.request m (headersSet hs name value), options)
  | .url u =>
    match options with
    | some o =>
      (.url u, some { o with headers := some (headersSet (o.headers.getD []) name value) })
    | none => (.url u, none)

/-- HTTP method names, as the `RequestMethod` enum of the repository (the
file `RequestMethod.ts` is not under `src/`; the enum values are the
standard method strings named by the spec). -/
def RequestMethod.GET : String := "GET"

/-- The PUT method string of the `RequestMethod` enum. -/
def RequestMethod.PUT : String := "PUT"

/-- The PATCH method string of the `RequestMethod` enum. -/
def RequestMethod.PATCH : String := "PATCH"

/-- The POST method string of the `RequestMethod` enum. -/
def RequestMethod.POST : String := "POST"

/-! ## Retry configuration -/

/-- Modelled from the spec: `RetryHandlerOptions` (the repository file
`options/RetryHandlerOptions.ts` is not under `src/`): `maxRetries` is a
non-negative integer, `delay` (the base delay) and `maxDelay` are seconds,
and `shouldRetry` is a predicate receiving the base delay, the attempt
count, the request, the request options and the response. `getMaxDelay()`
returns the `maxDelay` of the instance. -/
structure RetryHandlerOptions where
  maxRetries : ℕ
  delay : ℚ
  maxDelay : ℚ
  shouldRetry : ℚ → ℕ → RequestInfo → Option FetchOptions → Response → Bool

/-- Modelled from the spec: the process-wide default configuration
(`maxRetries = 3`, `baseDelay = 3`, `maxDelay = 180`, `shouldRetry` always
approves). -/
def defaultRetryHandlerOptions : RetryHandlerOptions :=
  { maxRetries := 3
    delay := 3
    maxDelay := 180
    shouldRetry := fun _ _ _ _ _ => true }

/-- Modelled from the spec: a per-call partial configuration override, as
supplied through the middleware control side channel; every field is
optional and merged over the defaults for that call only. -/
structure RetryOverride where
  maxRetries : Option ℕ := none
  delay : Option ℚ := none
  maxDelay : Option ℚ := none
  shouldRetry : Option (ℚ → ℕ → RequestInfo → Option FetchOptions → Response → Bool) := none

/-- Merging a partial override over a full configuration, as
`Object.assign(options, requestOptions)` does: a field present in the
override replaces the field of the copy, an absent field leaves it. -/
def applyOverride (o : RetryHandlerOptions) (ov : RetryOverride) : RetryHandlerOptions :=
  { maxRetries := ov.maxRetries.getD o.maxRetries
    delay := ov.delay.getD o.delay
    maxDelay := ov.maxDelay.getD o.maxDelay
    shouldRetry := ov.shouldRetry.getD o.shouldRetry }

/-- The effective per-call configuration: the handler's own options when the
context supplies no override, the merged value otherwise (the value computed
into the fresh copy by the two `Object.assign` calls of `execute`). -/
def mergeOptions (base : RetryHandlerOptions) (ov : Option RetryOverride) :
    RetryHandlerOptions :=
  match ov with
  | some o => applyOverride base o
  | none => base

/-! ## Context, errors, environment -/

/-- An error that `execute` can complete with: either a failure thrown by
the delegated next middleware (identified by a number so that unchanged
propagation is expressible), or a TypeError synthesized by a field access
on `undefined` inside the retry handler itself. -/
inductive JsError where
  | delegateErr (id : ℕ)
  | typeError (msg : String)
  deriving DecidableEq

/-- Modelled from the spec: the context passed through the middleware chain
(`IContext.ts` is not under `src/`): the outbound request, the call-scoped
request options, the response once produced, and the per-call override bag
of the middleware control (conflating "no middleware control" with "a
control carrying no options for this handler", which the source treats
identically: `Object.assign(options, undefined)` is a no-op). -/
structure Context where
  request : RequestInfo
  options : Option FetchOptions := none
  response : Option Response := none
  middlewareControl : Option RetryOverride := none

/-- The environment of oracles a run is evaluated against: the delegated
next middleware (one outcome per invocation index), `Math.random()` already
rounded to three decimals (one value per attempt count), the
implementation-defined date parser behind `new Date(s).getTime()` (`none`
models an Invalid Date, whose `getTime()` is NaN), and `Date.now()`,
both in milliseconds. -/
structure MiddlewareEnv where
  next : ℕ → Except ℕ Response
  rand : ℕ → ℚ
  dateParse : String → Option ℤ
  now : ℤ

/-- The observable outcome of a (possibly retrying) run: how many times the
delegate was invoked, the delays slept between retries (in order), and the
final outcome — normal completion with the final context, or a propagated
or synthesized error. -/
structure RunResult where
  calls : ℕ
  sleeps : List JSNum
  outcome : Except JsError Context

/-! ## The retry handler (`src/middleware/RetryHandler.ts`) -/

/-- The fixed list of status codes that are retried (`RETRY_STATUS_CODES`):
429 Too Many Requests, 503 Service Unavailable, 504 Gateway Timeout. -/
def RetryHandler.RETRY_STATUS_CODES : List ℕ := [429, 503, 504]

/-- Name of the retry attempt header (`RETRY_ATTEMPT_HEADER`). -/
def RetryHandler.RETRY_ATTEMPT_HEADER : String := "Retry-Attempt"

/-- Name of the retry after header (`RETRY_AFTER_HEADER`). -/
def RetryHandler.RETRY_AFTER_HEADER : String := "Retry-After"

/-- Name of the transfer encoding header (`TRANSFER_ENCODING_HEADER`). -/
def RetryHandler.TRANSFER_ENCODING_HEADER : String := "Transfer-Encoding"

/-- Value of transfer encoding chunked (`TRANSFER_ENCODING_CHUNKED`). -/
def RetryHandler.TRANSFER_ENCODING_CHUNKED : String := "chunked"

/-- Whether the response status is one of the retry status codes
(`isRetry`, line 96: `RETRY_STATUS_CODES.indexOf(response.status) !== -1`). -/
def RetryHandler.isRetry (response : Response) : Bool :=
  RetryHandler.RETRY_STATUS_CODES.contains response.status

/-- The method extraction of `isBuffered` line 109:
`request instanceof Request ? request.method : options.method`. When the
request is a plain URL string and `options` is `undefined`, the field access
`options.method` throws a TypeError. -/
def RetryHandler.requestMethodOf (request : RequestInfo)
    (options : Option FetchOptions) : Except JsError (Option String) :=
  match request with
  | .request m _ => .ok (some m)
  | .url _ =>
    match options with
    | some o => .ok o.method
    | none => .error (.typeError "cannot read method of undefined request options")

/-- Whether the payload is buffered and safe to resend (`isBuffered`, lines
108-121): the method is PUT, PATCH or POST, the request Content-Type header
is not the binary stream marker, and the response signals chunked transfer
encoding. The `Except` result records the TypeError thrown by line 109 when
the request is a plain URL string and the options are absent. -/
def RetryHandler.isBuffered (request : RequestInfo) (options : Option FetchOptions)
    (response : Response) : Except JsError Bool :=
  match RetryHandler.requestMethodOf request options with
  | .error e => .error e
  | .ok method =>
    let isPutPatchOrPost : Bool :=
      method == some RequestMethod.PUT || method == some RequestMethod.PATCH ||
        method == some RequestMethod.POST
    if isPutPatchOrPost then
      let isStream : Bool :=
        getRequestHeader request options "Content-Type" == some "application/octet-stream"
      if !isStream then
        let isTransferEncoding : Bool :=
          response.headers.isSome &&
            (responseHeadersGet response RetryHandler.TRANSFER_ENCODING_HEADER ==
              some RetryHandler.TRANSFER_ENCODING_CHUNKED)
        if isTransferEncoding then .ok true else .ok false
      else .ok false
    else .ok false

/-- The exponential back off value (`getExponentialBackOffTime`, lines
154-157): `Math.round((1/2) * (2 ** attempts - 1))` plus the randomness,
where the randomness stands for `Number(Math.random().toFixed(3))`. -/
def RetryHandler.getExponentialBackOffTime (attempts : ℕ) (randomness : ℚ) : ℚ :=
  ((jsRound ((1 / 2) * ((2 : ℚ) ^ attempts - 1)) : ℤ) : ℚ) + randomness

/-- The delay before the cap is applied — the `newDelay` local of `getDelay`
(lines 132-144): the Retry-After header value taken as a number when it is
numeric, else as an absolute timestamp diffed against now in whole rounded
seconds (NaN when the date cannot be parsed), else the exponential back off
multiplied by the base delay. -/
def RetryHandler.preCapDelay (response : Response) (retryAttempts : ℕ)
    (delay : ℚ) (randomness : ℚ) (dateParse : String → Option ℤ) (now : ℤ) : JSNum :=
  match responseHeadersGet response RetryHandler.RETRY_AFTER_HEADER with
  | some retryAfter =>
    match jsToNumber retryAfter with
    | .nan =>
      match dateParse retryAfter with
      | some t => .fin ((jsRound (((t : ℚ) - (now : ℚ)) / 1000) : ℤ) : ℚ)
      | none => .nan
    | v => v
  | none => .fin (RetryHandler.getExponentialBackOffTime retryAttempts randomness * delay)

/-- The delay for a retry (`getDelay`, lines 131-146): the pre-cap delay
capped by `Math.min` with `this.options.getMaxDelay()` — the `maxDelay`
argument here is always the one of the options the handler was constructed
with, exactly as in the source. -/
def RetryHandler.getDelay (response : Response) (retryAttempts : ℕ) (delay : ℚ)
    (maxDelay : ℚ) (randomness : ℚ) (dateParse : String → Option ℤ) (now : ℤ) : JSNum :=
  jsMin (RetryHandler.preCapDelay response retryAttempts delay randomness dateParse now)
    (.fin maxDelay)

/-- Unfolding of the pre-cap delay when a Retry-After header is present. -/
theorem RetryHandler.preCapDelay_of_header (response : Response) (retryAttempts : ℕ)
    (delay randomness : ℚ) (dateParse : String → Option ℤ) (now : ℤ) (s : String)
    (hra : responseHeadersGet response RetryHandler.RETRY_AFTER_HEADER = some s) :
    RetryHandler.preCapDelay response retryAttempts delay randomness dateParse now =
      (match jsToNumber s with
      | .nan =>
        match dateParse s with
        | some t => .fin ((jsRound (((t : ℚ) - (now : ℚ)) / 1000) : ℤ) : ℚ)
        | none => .nan
      | v => v) := by
  unfold RetryHandler.preCapDelay
  rw [hra]

/-- Unfolding of the pre-cap delay when no Retry-After header is present. -/
theorem RetryHandler.preCapDelay_of_no_header (response : Response) (retryAttempts : ℕ)
    (delay randomness : ℚ) (dateParse : String → Option ℤ) (now : ℤ)
    (hra : responseHeadersGet response RetryHandler.RETRY_AFTER_HEADER = none) :
    RetryHandler.preCapDelay response retryAttempts delay randomness dateParse now =
      .fin (RetryHandler.getExponentialBackOffTime retryAttempts randomness * delay) := by
  unfold RetryHandler.preCapDelay
  rw [hra]

set_option linter.unusedVariables false in
/-- The retrying executor (`executeWithRetry`, lines 180-195). `hOpts` is
`this.options` (the options the handler was constructed with, used by
`getDelay` for the cap), `options` is the effective per-call configuration
passed in by `execute`, `callIdx` indexes invocations of the delegated next
middleware. The eligibility gate is the source's literal condition
`options.maxRetries === retryAttempts && isRetry && isBuffered && shouldRetry`,
evaluated in that short-circuit order; a TypeError thrown by `isBuffered`
escapes the call, and the recursion continues with the incremented attempt
count after writing the Retry-Attempt header and sleeping the computed
delay. -/
def RetryHandler.executeWithRetry (env : MiddlewareEnv) (hOpts : RetryHandlerOptions)
    (context : Context) (retryAttempts : ℕ) (options : RetryHandlerOptions)
    (callIdx : ℕ) : RunResult :=
  match env.next callIdx with
  | .error e => ⟨1, [], .error (.delegateErr e)⟩
  | .ok resp =>
    let ctx1 : Context := { context with response := some resp }
    if hc : options.maxRetries = retryAttempts ∧ RetryHandler.isRetry resp = true then
      match RetryHandler.isBuffered ctx1.request ctx1.options resp with
      | .error err => ⟨1, [], .error err⟩
      | .ok buffered =>
        if buffered && options.shouldRetry options.delay retryAttempts ctx1.request
            ctx1.options resp then
          let retryAttempts' := retryAttempts + 1
          let rp := setRequestHeader ctx1.request ctx1.options
            RetryHandler.RETRY_ATTEMPT_HEADER (toString retryAttempts')
          let ctx2 : Context := { ctx1 with request := rp.1, options := rp.2 }
          let d := RetryHandler.getDelay resp retryAttempts' options.delay hOpts.maxDelay
            (env.rand retryAttempts') env.dateParse env.now
          let rest := RetryHandler.executeWithRetry env hOpts ctx2 retryAttempts' options
            (callIdx + 1)
          ⟨rest.calls + 1, d :: rest.sleeps, rest.outcome⟩
        else ⟨1, [], .ok ctx1⟩
    else ⟨1, [], .ok ctx1⟩
termination_by options.maxRetries + 1 - retryAttempts
decreasing_by
  obtain ⟨h1, _⟩ := hc
  omega

/-- The public entry point (`execute`, lines 204-216): build the effective
per-call configuration (a fresh copy of the handler's options, merged with
the per-call override when the middleware control carries one) and run
`executeWithRetry` with the attempt counter at 0. -/
def RetryHandler.execute (env : MiddlewareEnv) (hOpts : RetryHandlerOptions)
    (context : Context) : RunResult :=
  let options := mergeOptions hOpts context.middlewareControl
  RetryHandler.executeWithRetry env hOpts context 0 options 0

/-! ## Heap model of the configuration merge (for the frame property)

The value-level `mergeOptions` above says what the effective configuration
is; to express that building it never writes into the handler's own options
object, the two `Object.assign` calls of `execute` (lines 206-211) are also
modelled against an explicit object store: options objects live at numeric
references, `new RetryHandlerOptions()` allocates a fresh reference, and
`Object.assign(target, src)` writes the source's fields into the target
reference only. -/

/-- An object store of `RetryHandlerOptions` instances; a reference is an
index into the list. -/
abbrev OptionsStore := List RetryHandlerOptions

/-- Dereference an options object; `none` for a dangling reference. -/
def OptionsStore.get? (s : OptionsStore) (r : ℕ) : Option RetryHandlerOptions :=
  s[r]?

/-- The configuration-building prefix of `execute` (lines 206-211) against
the object store: allocate a fresh default instance, assign the handler's
own options onto it (`Object.assign(new RetryHandlerOptions(), this.options)`
overwrites every field, so the fresh object becomes a copy), then assign the
per-call override onto the same fresh object. Returns the updated store and
the reference to the effective configuration. -/
def RetryHandler.buildEffectiveOptions (store : OptionsStore) (thisRef : ℕ)
    (ov : Option RetryOverride) : OptionsStore × ℕ :=
  let freshRef := store.length
  let store1 : OptionsStore := store ++ [defaultRetryHandlerOptions]
  let store2 : OptionsStore :=
    match store1.get? thisRef with
    | some src => store1.set freshRef src
    | none => store1
  let store3 : OptionsStore :=
    match ov with
    | some o =>
      match store2.get? freshRef with
      | some cur => store2.set freshRef (applyOverride cur o)
      | none => store2
    | none => store2
  (store3, freshRef)

/-! ## Helper lemmas -/

/-- When the attempt counter differs from the effective `maxRetries`, the
source's eligibility gate `options.maxRetries === retryAttempts` is false,
so `executeWithRetry` performs exactly one delegate invocation and stops:
it propagates a thrown failure, or completes with the obtained response on
the context. -/
theorem RetryHandler.executeWithRetry_stop (env : MiddlewareEnv)
    (hOpts : RetryHandlerOptions) (context : Context) (retryAttempts : ℕ)
    (options : RetryHandlerOptions) (callIdx : ℕ)
    (h : options.maxRetries ≠ retryAttempts) :
    RetryHandler.executeWithRetry env hOpts context retryAttempts options callIdx =
      match env.next callIdx with
      | .error e => ⟨1, [], .error (.delegateErr e)⟩
      | .ok resp => ⟨1, [], .ok { context with response := some resp }⟩ := by
  rw [RetryHandler.executeWithRetry]
  cases env.next callIdx with
  | error e => rfl
  | ok resp => simp [h]

/-- Evaluation of `isBuffered` once the method extraction is known: the
nested conditionals collapse to the conjunction of the three checks. -/
theorem RetryHandler.isBuffered_ok (request : RequestInfo) (options : Option FetchOptions)
    (response : Response) (method : Option String)
    (hm : RetryHandler.requestMethodOf request options = .ok method) :
    RetryHandler.isBuffered request options response =
      .ok ((method == some RequestMethod.PUT || method == some RequestMethod.PATCH ||
            method == some RequestMethod.POST) &&
          !(getRequestHeader request options "Content-Type" ==
            some "application/octet-stream") &&
          (response.headers.isSome &&
            (responseHeadersGet response RetryHandler.TRANSFER_ENCODING_HEADER ==
              some RetryHandler.TRANSFER_ENCODING_CHUNKED))) := by
  unfold RetryHandler.isBuffered
  rw [hm]
  simp only []
  generalize (method == some RequestMethod.PUT || method == some RequestMethod.PATCH ||
    method == some RequestMethod.POST) = b1
  generalize (getRequestHeader request options "Content-Type" ==
    some "application/octet-stream") = b2
  generalize (response.headers.isSome &&
    (responseHeadersGet response RetryHandler.TRANSFER_ENCODING_HEADER ==
      some RetryHandler.TRANSFER_ENCODING_CHUNKED)) = b3
  cases b1 <;> cases b2 <;> cases b3 <;> rfl

/-! ## Claim C2 -/

/-- Claim C2: if the delegated next-middleware call fails (throws),
`executeWithRetry` propagates that same failure to the caller unchanged and
performs zero further delegate invocations — retries happen only after a
successfully obtained response, never on a thrown failure. -/
theorem C2_thrown_failure_propagates (env : MiddlewareEnv)
    (hOpts : RetryHandlerOptions) (context : Context) (retryAttempts : ℕ)
    (options : RetryHandlerOptions) (callIdx : ℕ) (e : ℕ)
    (h : env.next callIdx = .error e) :
    RetryHandler.executeWithRetry env hOpts context retryAttempts options callIdx =
      ⟨1, [], .error (.delegateErr e)⟩ := by
  rw [RetryHandler.executeWithRetry, h]

/-- A context whose delegate always throws failure number 7. -/
def c2Env : MiddlewareEnv :=
  { next := fun _ => .error 7
    rand := fun _ => 0
    dateParse := fun _ => none
    now := 0 }

/-- A plain context for the C2 witness. -/
def c2Ctx : Context := { request := .url "https://example.com/a" }

/-- Witness for C2 at a concrete input: the single delegate invocation
throws failure 7, and the run propagates exactly that failure. -/
theorem C2_witness :
    RetryHandler.executeWithRetry c2Env defaultRetryHandlerOptions c2Ctx 0
      defaultRetryHandlerOptions 0 = ⟨1, [], .error (.delegateErr 7)⟩ :=
  C2_thrown_failure_propagates c2Env defaultRetryHandlerOptions c2Ctx 0
    defaultRetryHandlerOptions 0 7 rfl

/-! ## Claim C3 -/

/-- The transfer-encoding check of `isBuffered` is equivalent to the
response's Transfer-Encoding header being exactly `chunked`. -/
theorem transferEncodingCheck_iff (response : Response) :
    (response.headers.isSome = true ∧
        responseHeadersGet response RetryHandler.TRANSFER_ENCODING_HEADER =
          some RetryHandler.TRANSFER_ENCODING_CHUNKED) ↔
      responseHeadersGet response "Transfer-Encoding" = some "chunked" := by
  cases h : response.headers with
  | none => simp [responseHeadersGet, h, RetryHandler.TRANSFER_ENCODING_HEADER]
  | some hs =>
    simp [responseHeadersGet, h, RetryHandler.TRANSFER_ENCODING_HEADER,
      RetryHandler.TRANSFER_ENCODING_CHUNKED]

/-- Claim C3: the resend-safety check `isBuffered` returns true exactly when
the request's method (as the source extracts it) is PUT, PATCH or POST, the
request's Content-Type header is not `application/octet-stream`, and the
response's Transfer-Encoding header equals `chunked`; in particular, for
every GET request it returns false, so no retry occurs for a GET request. -/
theorem C3_isBuffered_characterization :
    (∀ (request : RequestInfo) (options : Option FetchOptions) (response : Response),
        RetryHandler.isBuffered request options response = .ok true ↔
          ((∃ m, RetryHandler.requestMethodOf request options = .ok (some m) ∧
              (m = RequestMethod.PUT ∨ m = RequestMethod.PATCH ∨ m = RequestMethod.POST)) ∧
            getRequestHeader request options "Content-Type" ≠
              some "application/octet-stream" ∧
            responseHeadersGet response "Transfer-Encoding" = some "chunked"))
    ∧ (∀ (request : RequestInfo) (options : Option FetchOptions) (response : Response),
        RetryHandler.requestMethodOf request options = .ok (some RequestMethod.GET) →
        RetryHandler.isBuffered request options response = .ok false) := by
  constructor
  · intro request options response
    cases hm : RetryHandler.requestMethodOf request options with
    | error e =>
      have hb : RetryHandler.isBuffered request options response = .error e := by
        unfold RetryHandler.isBuffered
        rw [hm]
      constructor
      · intro h
        exact Except.noConfusion (hb.symm.trans h)
      · rintro ⟨⟨m, hm2, _⟩, _, _⟩
        exact Except.noConfusion hm2
    | ok method =>
      rw [RetryHandler.isBuffered_ok request options response method hm]
      rw [Except.ok.injEq]
      simp only [Bool.and_eq_true, Bool.or_eq_true, beq_iff_eq, Bool.not_eq_true',
        beq_eq_false_iff_ne, ne_eq]
      rw [transferEncodingCheck_iff]
      constructor
      · rintro ⟨⟨hmeth, hct⟩, hte⟩
        refine ⟨?_, hct, hte⟩
        rcases hmeth with (h | h) | h
        · refine ⟨RequestMethod.PUT, ?_, Or.inl rfl⟩
          rw [h]
        · refine ⟨RequestMethod.PATCH, ?_, Or.inr (Or.inl rfl)⟩
          rw [h]
        · refine ⟨RequestMethod.POST, ?_, Or.inr (Or.inr rfl)⟩
          rw [h]
      · rintro ⟨⟨m, hm2, hcases⟩, hct, hte⟩
        have hmm : method = some m := Except.ok.inj hm2
        subst hmm
        refine ⟨⟨?_, hct⟩, hte⟩
        rcases hcases with h | h | h
        · exact Or.inl (Or.inl (by rw [h]))
        · exact Or.inl (Or.inr (by rw [h]))
        · exact Or.inr (by rw [h])
  · intro request options response hm
    rw [RetryHandler.isBuffered_ok request options response (some RequestMethod.GET) hm]
    rfl

/-- A response used by the C3 witness: chunked 503. -/
def c3Resp : Response := { status := 503, headers := some [("Transfer-Encoding", "chunked")] }

/-- Witness for C3 at a concrete input: a GET `Request` object is never
resend-safe, even against a chunked 503 response. -/
theorem C3_witness :
    RetryHandler.isBuffered (RequestInfo.request RequestMethod.GET []) none c3Resp =
      .ok false :=
  C3_isBuffered_characterization.2 (RequestInfo.request RequestMethod.GET []) none c3Resp rfl

/-! ## Claim C4 -/

/-- A date oracle on which every string is an Invalid Date (as JavaScript
`new Date` behaves on strings that are neither numeric nor dates). -/
def noDate : String → Option ℤ := fun _ => none

/-- A response whose Retry-After value is neither numeric nor a parseable
date: `Number("soon")` is NaN and `new Date("soon")` is an Invalid Date. -/
def c4Resp : Response := { status := 503, headers := some [("Retry-After", "soon")] }

/-- Counterexample to claim C4 as stated: with a Retry-After value that is
neither numeric nor a parseable date, the computed delay is NaN,
`Math.min(NaN, maxDelay)` is NaN, and NaN is not at most `maxDelay`. -/
theorem C4_counterexample :
    RetryHandler.getDelay c4Resp 1 3 180 0 noDate 0 = JSNum.nan ∧
      jsLe (RetryHandler.getDelay c4Resp 1 3 180 0 noDate 0) (.fin 180) = false :=
  ⟨rfl, rfl⟩

/-- Claim C4 as amended: whenever the pre-cap delay is an actual number (the
Retry-After header is absent, numeric, or a parseable timestamp — i.e. the
`newDelay` local is not NaN), the value returned by `getDelay` is at most
`maxDelay`, because the final delay is `Math.min(newDelay, maxDelay)`. -/
theorem C4_delay_capped (response : Response) (retryAttempts : ℕ)
    (delay maxDelay randomness : ℚ) (dateParse : String → Option ℤ) (now : ℤ)
    (h : RetryHandler.preCapDelay response retryAttempts delay randomness dateParse now ≠
      JSNum.nan) :
    jsLe (RetryHandler.getDelay response retryAttempts delay maxDelay randomness
      dateParse now) (.fin maxDelay) = true := by
  unfold RetryHandler.getDelay
  cases hv : RetryHandler.preCapDelay response retryAttempts delay randomness dateParse now with
  | nan => exact absurd hv h
  | posInf => simp [jsMin, jsLe]
  | negInf => simp [jsMin, jsLe]
  | fin q => simp [jsMin, jsLe, min_le_right]

/-- A response with no Retry-After header for the C4 witness. -/
def c4wResp : Response := { status := 503, headers := some [] }

/-- Witness for C4 at a concrete input: with no Retry-After header the
pre-cap delay is a number, and the capped delay is at most the cap. -/
theorem C4_witness :
    (RetryHandler.preCapDelay c4wResp 0 3 0 noDate 0 ≠ JSNum.nan) ∧
      jsLe (RetryHandler.getDelay c4wResp 0 3 180 0 noDate 0) (.fin 180) = true :=
  ⟨fun h => JSNum.noConfusion h,
    C4_delay_capped c4wResp 0 3 180 0 noDate 0 (fun h => JSNum.noConfusion h)⟩

/-! ## Claim C5 -/

/-- Claim C5: when the response carries a Retry-After header, a value that
coerces to a number (including `"2"`, which yields exactly 2 — see the
witness) is taken as the pre-cap delay in seconds directly; otherwise the
value is treated as an absolute timestamp and the pre-cap delay is the
rounded number of seconds between that moment and the current time, which
is at most zero when the timestamp is not in the future. -/
theorem C5_retry_after_semantics (response : Response) (retryAttempts : ℕ)
    (delay randomness : ℚ) (dateParse : String → Option ℤ) (now : ℤ) (s : String)
    (hra : responseHeadersGet response "Retry-After" = some s) :
    (∀ v, jsToNumber s = v → v ≠ JSNum.nan →
        RetryHandler.preCapDelay response retryAttempts delay randomness dateParse now = v)
    ∧ (∀ t, jsToNumber s = JSNum.nan → dateParse s = some t →
        RetryHandler.preCapDelay response retryAttempts delay randomness dateParse now =
          .fin ((jsRound (((t : ℚ) - (now : ℚ)) / 1000) : ℤ) : ℚ) ∧
        (t ≤ now → jsRound (((t : ℚ) - (now : ℚ)) / 1000) ≤ 0)) := by
  have hra2 : responseHeadersGet response RetryHandler.RETRY_AFTER_HEADER = some s := hra
  constructor
  · intro v hv hnan
    rw [RetryHandler.preCapDelay_of_header response retryAttempts delay randomness dateParse
      now s hra2, hv]
    cases v with
    | nan => exact absurd rfl hnan
    | posInf => rfl
    | negInf => rfl
    | fin q => rfl
  · intro t hnan ht
    constructor
    · rw [RetryHandler.preCapDelay_of_header response retryAttempts delay randomness dateParse
        now s hra2, hnan, ht]
    · intro htle
      have hx : ((t : ℚ) - (now : ℚ)) / 1000 ≤ 0 := by
        apply div_nonpos_of_nonpos_of_nonneg
        · rw [sub_nonpos]
          exact_mod_cast htle
        · norm_num
      unfold jsRound
      calc ⌊((t : ℚ) - (now : ℚ)) / 1000 + 1 / 2⌋
          ≤ ⌊(0 : ℚ) + 1 / 2⌋ := Int.floor_le_floor (by linarith)
        _ = 0 := by norm_num

/-- A response carrying Retry-After value `"2"` for the C5 witness. -/
def c5Resp : Response := { status := 429, headers := some [("Retry-After", "2")] }

/-- Witness for C5 at a concrete input: the numeric Retry-After value `"2"`
yields a pre-cap delay of exactly 2 seconds. -/
theorem C5_witness :
    RetryHandler.preCapDelay c5Resp 0 3 0 noDate 0 = JSNum.fin 2 :=
  (C5_retry_after_semantics c5Resp 0 3 0 noDate 0 "2" rfl).1 (JSNum.fin 2)
    (by simp [jsToNumber, trimJsWs, isJsWhiteSpace, jsStrDecimal, jsUnsignedPart,
      readDecWithExp, readUnsignedDecimal, readSignedInt, readDigits, splitFirst, decDigit?,
      toJSNum])
    (fun h => JSNum.noConfusion h)

/-! ## Claim C6 -/

/-- Counterexample to claim C6 as stated: the exponential back off base
value at `attempts = 3` (randomness 0) is `Math.round(0.5 × 7) = 4`, not 3
— JavaScript rounds 3.5 up. -/
theorem C6_counterexample :
    RetryHandler.getExponentialBackOffTime 3 0 = 4 ∧
      RetryHandler.getExponentialBackOffTime 3 0 ≠ 3 := by
  constructor <;> norm_num [RetryHandler.getExponentialBackOffTime, jsRound]

/-- Claim C6 as amended: with no Retry-After header the pre-cap delay is
`(round(0.5 × (2^attempts − 1)) + jitter) × baseDelay` for the jitter value
produced by `Number(Math.random().toFixed(3))`; the base value before the
jitter term and before multiplying by `baseDelay` is 0 for `attempts = 0`
and 4 (not 3) for `attempts = 3`. -/
theorem C6_backoff_formula :
    (∀ (response : Response) (retryAttempts : ℕ) (delay randomness : ℚ)
        (dateParse : String → Option ℤ) (now : ℤ),
        responseHeadersGet response "Retry-After" = none →
        RetryHandler.preCapDelay response retryAttempts delay randomness dateParse now =
          .fin ((((jsRound ((1 / 2) * ((2 : ℚ) ^ retryAttempts - 1)) : ℤ) : ℚ) + randomness)
            * delay))
    ∧ (∀ randomness : ℚ, RetryHandler.getExponentialBackOffTime 0 randomness = 0 + randomness)
    ∧ (∀ randomness : ℚ, RetryHandler.getExponentialBackOffTime 3 randomness = 4 + randomness) := by
  refine ⟨?_, ?_, ?_⟩
  · intro response retryAttempts delay randomness dateParse now hra
    have hra2 : responseHeadersGet response RetryHandler.RETRY_AFTER_HEADER = none := hra
    rw [RetryHandler.preCapDelay_of_no_header response retryAttempts delay randomness
      dateParse now hra2]
    rfl
  · intro randomness
    norm_num [RetryHandler.getExponentialBackOffTime, jsRound]
  · intro randomness
    norm_num [RetryHandler.getExponentialBackOffTime, jsRound]

/-- A response with no Retry-After header for the C6 witness. -/
def c6Resp : Response := { status := 503, headers := some [("Transfer-Encoding", "chunked")] }

/-- Witness for C6 at a concrete input: the backoff formula instantiated at
`attempts = 3`, randomness 0, base delay 3. -/
theorem C6_witness :
    RetryHandler.preCapDelay c6Resp 3 3 0 noDate 0 =
      .fin ((((jsRound ((1 / 2) * ((2 : ℚ) ^ (3 : ℕ) - 1)) : ℤ) : ℚ) + 0) * 3) :=
  C6_backoff_formula.1 c6Resp 3 3 0 noDate 0 rfl

/-! ## Step lemmas for the retry branch -/

/-- The context after one retry step: the Retry-Attempt header has been
written with the new attempt count, and the obtained response recorded. -/
def retryStepContext (context : Context) (resp : Response) (newAttempts : ℕ) : Context :=
  { request := (setRequestHeader context.request context.options
      RetryHandler.RETRY_ATTEMPT_HEADER (toString newAttempts)).1
    options := (setRequestHeader context.request context.options
      RetryHandler.RETRY_ATTEMPT_HEADER (toString newAttempts)).2
    response := some resp
    middlewareControl := context.middlewareControl }

/-- One unfolding of `executeWithRetry` in the retry branch: when the gate
`options.maxRetries === retryAttempts` holds, the status is retryable, the
payload is resend-safe and the predicate approves, the run writes the
incremented attempt count into the Retry-Attempt header, sleeps the
computed delay (capped by the constructor options) and recurses. -/
theorem RetryHandler.executeWithRetry_retry (env : MiddlewareEnv)
    (hOpts : RetryHandlerOptions) (context : Context) (retryAttempts : ℕ)
    (options : RetryHandlerOptions) (callIdx : ℕ) (resp : Response)
    (hnext : env.next callIdx = .ok resp)
    (heq : options.maxRetries = retryAttempts)
    (hretry : RetryHandler.isRetry resp = true)
    (hbuf : RetryHandler.isBuffered context.request context.options resp = .ok true)
    (hshould : options.shouldRetry options.delay retryAttempts context.request
      context.options resp = true) :
    RetryHandler.executeWithRetry env hOpts context retryAttempts options callIdx =
      { calls := (RetryHandler.executeWithRetry env hOpts
            (retryStepContext context resp (retryAttempts + 1)) (retryAttempts + 1) options
            (callIdx + 1)).calls + 1
        sleeps := RetryHandler.getDelay resp (retryAttempts + 1) options.delay hOpts.maxDelay
            (env.rand (retryAttempts + 1)) env.dateParse env.now ::
          (RetryHandler.executeWithRetry env hOpts
            (retryStepContext context resp (retryAttempts + 1)) (retryAttempts + 1) options
            (callIdx + 1)).sleeps
        outcome := (RetryHandler.executeWithRetry env hOpts
            (retryStepContext context resp (retryAttempts + 1)) (retryAttempts + 1) options
            (callIdx + 1)).outcome } := by
  rw [RetryHandler.executeWithRetry, hnext]
  dsimp only
  rw [dif_pos (And.intro heq hretry), hbuf]
  dsimp only
  rw [hshould]
  rfl

/-- One unfolding of `executeWithRetry` when the gate and the status check
pass but `isBuffered` throws: the TypeError escapes the call. -/
theorem RetryHandler.executeWithRetry_bufErr (env : MiddlewareEnv)
    (hOpts : RetryHandlerOptions) (context : Context) (retryAttempts : ℕ)
    (options : RetryHandlerOptions) (callIdx : ℕ) (resp : Response) (err : JsError)
    (hnext : env.next callIdx = .ok resp)
    (heq : options.maxRetries = retryAttempts)
    (hretry : RetryHandler.isRetry resp = true)
    (hbuf : RetryHandler.isBuffered context.request context.options resp = .error err) :
    RetryHandler.executeWithRetry env hOpts context retryAttempts options callIdx =
      ⟨1, [], .error err⟩ := by
  rw [RetryHandler.executeWithRetry, hnext]
  dsimp only
  rw [dif_pos (And.intro heq hretry), hbuf]

/-! ## Claim C1 -/

/-- A retryable chunked 503 response for the C1 runs. -/
def c1Resp : Response := { status := 503, headers := some [("Transfer-Encoding", "chunked")] }

/-- An environment whose delegate always succeeds with the chunked 503. -/
def c1Env : MiddlewareEnv :=
  { next := fun _ => .ok c1Resp
    rand := fun _ => 0
    dateParse := noDate
    now := 0 }

/-- A POST request context, fully eligible for retry apart from the gate. -/
def c1Ctx : Context := { request := .request RequestMethod.POST [] }

/-- Handler options with a zero attempt budget. -/
def c1OptsZero : RetryHandlerOptions := { defaultRetryHandlerOptions with maxRetries := 0 }

/-- Claim C1 fails on the code (the eligibility gate at line 183 reads
`options.maxRetries === retryAttempts`, an equality instead of the intended
`attempts < maxRetries`): with the default budget `maxRetries = 3` and a
fully eligible POST/chunked/503 exchange, the run performs exactly one
delegate invocation — no retry — where the claim requires two; and with
`maxRetries = 0`, where the claim requires no retry because the attempt
count equals the budget, the run retries once (two delegate invocations)
and writes attempt count 1 into the Retry-Attempt header. -/
theorem C1_gate_inverted :
    (RetryHandler.execute c1Env defaultRetryHandlerOptions c1Ctx).calls = 1 ∧
      (RetryHandler.execute c1Env c1OptsZero c1Ctx).calls = 2 ∧
      (∃ c, (RetryHandler.execute c1Env c1OptsZero c1Ctx).outcome = .ok c ∧
        getRequestHeader c.request c.options RetryHandler.RETRY_ATTEMPT_HEADER = some "1") := by
  have hA : RetryHandler.execute c1Env defaultRetryHandlerOptions c1Ctx =
      RetryHandler.executeWithRetry c1Env defaultRetryHandlerOptions c1Ctx 0
        defaultRetryHandlerOptions 0 := rfl
  have hB : RetryHandler.execute c1Env c1OptsZero c1Ctx =
      RetryHandler.executeWithRetry c1Env c1OptsZero c1Ctx 0 c1OptsZero 0 := rfl
  have hstep := RetryHandler.executeWithRetry_retry c1Env c1OptsZero c1Ctx 0 c1OptsZero 0
    c1Resp rfl rfl rfl rfl rfl
  have hrest := RetryHandler.executeWithRetry_stop c1Env c1OptsZero
    (retryStepContext c1Ctx c1Resp 1) 1 c1OptsZero 1 (by decide)
  refine ⟨?_, ?_, ?_⟩
  · rw [hA, RetryHandler.executeWithRetry_stop c1Env defaultRetryHandlerOptions c1Ctx 0
      defaultRetryHandlerOptions 0 (by decide)]
    rfl
  · rw [hB, hstep]
    dsimp only
    rw [hrest]
    rfl
  · refine ⟨{ retryStepContext c1Ctx c1Resp 1 with response := some c1Resp }, ?_, rfl⟩
    rw [hB, hstep]
    dsimp only
    rw [hrest]
    rfl

/-! ## Claim C9 -/

/-- A retryable chunked 429 response for the C9 run. -/
def c9Resp : Response := { status := 429, headers := some [("Transfer-Encoding", "chunked")] }

/-- An environment whose delegate always succeeds with the chunked 429. -/
def c9Env : MiddlewareEnv :=
  { next := fun _ => .ok c9Resp
    rand := fun _ => 0
    dateParse := noDate
    now := 0 }

/-- A PUT request context, fully eligible for retry apart from the gate. -/
def c9Ctx : Context := { request := .request RequestMethod.PUT [] }

/-- Handler options with a zero attempt budget for the C9 run. -/
def c9Opts : RetryHandlerOptions := { defaultRetryHandlerOptions with maxRetries := 0 }

/-- Claim C9 fails on the code in its bound: the run terminates, but the
retry loop is not bounded by `maxRetries` — with `maxRetries = 0` (zero
retry budget) the inverted gate `options.maxRetries === retryAttempts`
fires at attempt 0, so one retry occurs and the delegate is invoked twice. -/
theorem C9_bound_violated :
    c9Opts.maxRetries = 0 ∧ (RetryHandler.execute c9Env c9Opts c9Ctx).calls = 2 := by
  have hB : RetryHandler.execute c9Env c9Opts c9Ctx =
      RetryHandler.executeWithRetry c9Env c9Opts c9Ctx 0 c9Opts 0 := rfl
  have hstep := RetryHandler.executeWithRetry_retry c9Env c9Opts c9Ctx 0 c9Opts 0
    c9Resp rfl rfl rfl rfl rfl
  have hrest := RetryHandler.executeWithRetry_stop c9Env c9Opts
    (retryStepContext c9Ctx c9Resp 1) 1 c9Opts 1 (by decide)
  refine ⟨rfl, ?_⟩
  rw [hB, hstep]
  dsimp only
  rw [hrest]
  rfl

/-! ## Claim C7 -/

/-- A context is safe for the payload check when its request is a rich
`Request` object, or its request options are present — exactly the inputs
on which line 109 (`options.method`) cannot dereference `undefined`. -/
def ctxSafe (c : Context) : Bool :=
  match c.request with
  | .request _ _ => true
  | .url _ => c.options.isSome

/-- On a safe request/options pair, `isBuffered` never throws. -/
theorem RetryHandler.isBuffered_safe (request : RequestInfo)
    (options : Option FetchOptions) (response : Response)
    (hs : (match request with
      | .request _ _ => true
      | .url _ => options.isSome) = true) :
    ∃ b, RetryHandler.isBuffered request options response = .ok b := by
  cases request with
  | request m hs2 =>
    exact ⟨_, RetryHandler.isBuffered_ok (.request m hs2) options response (some m) rfl⟩
  | url u =>
    cases options with
    | none => simp at hs
    | some o =>
      exact ⟨_, RetryHandler.isBuffered_ok (.url u) (some o) response o.method rfl⟩

/-- Handler options with a zero attempt budget for the C7 counterexample. -/
def c7Opts : RetryHandlerOptions := { defaultRetryHandlerOptions with maxRetries := 0 }

/-- A 429 response for the C7 counterexample. -/
def c7Resp : Response := { status := 429, headers := none }

/-- An environment whose delegate always succeeds with the 429. -/
def c7Env : MiddlewareEnv :=
  { next := fun _ => .ok c7Resp
    rand := fun _ => 0
    dateParse := noDate
    now := 0 }

/-- A context whose request is a plain URL string with absent options. -/
def c7Ctx : Context := { request := .url "https://example.com/b", options := none }

/-- Counterexample to claim C7 as stated: with a plain URL string request,
absent request options and a retryable response reaching the eligibility
check (zero budget makes the inverted gate fire at attempt 0), `execute`
fails with a TypeError synthesized by the handler itself — line 109 reads
`options.method` off `undefined` — although the delegate never failed. -/
theorem C7_counterexample :
    (RetryHandler.execute c7Env c7Opts c7Ctx).outcome =
      .error (.typeError "cannot read method of undefined request options") ∧
      (∀ n e, c7Env.next n ≠ .error e) := by
  constructor
  · have hB : RetryHandler.execute c7Env c7Opts c7Ctx =
        RetryHandler.executeWithRetry c7Env c7Opts c7Ctx 0 c7Opts 0 := rfl
    rw [hB, RetryHandler.executeWithRetry_bufErr c7Env c7Opts c7Ctx 0 c7Opts 0 c7Resp
      (.typeError "cannot read method of undefined request options") rfl rfl rfl rfl]
  · intro n e h
    exact Except.noConfusion h

/-- Claim C7 as amended: for every context whose request is a rich `Request`
object or whose request options are present, any failure of `execute` is
exactly a failure raised by the delegated next middleware, propagated
unchanged; the one exception forced by the counterexample is a plain URL
string request with absent options reaching the payload-safety check. -/
theorem C7_failures_are_delegate_failures (env : MiddlewareEnv)
    (hOpts : RetryHandlerOptions) (context : Context)
    (hsafe : ctxSafe context = true) (e : JsError)
    (he : (RetryHandler.execute env hOpts context).outcome = .error e) :
    ∃ id, e = JsError.delegateErr id ∧ ∃ n, env.next n = .error id := by
  have hB : RetryHandler.execute env hOpts context =
      RetryHandler.executeWithRetry env hOpts context 0
        (mergeOptions hOpts context.middlewareControl) 0 := rfl
  rw [hB] at he
  rw [RetryHandler.executeWithRetry] at he
  cases hnext : env.next 0 with
  | error id =>
    rw [hnext] at he
    dsimp only at he
    exact ⟨id, (Except.error.inj he).symm, 0, hnext⟩
  | ok resp =>
    rw [hnext] at he
    dsimp only at he
    by_cases hc : (mergeOptions hOpts context.middlewareControl).maxRetries = 0 ∧
        RetryHandler.isRetry resp = true
    · rw [dif_pos hc] at he
      obtain ⟨b, hb⟩ := RetryHandler.isBuffered_safe context.request context.options resp
        (by
          unfold ctxSafe at hsafe
          exact hsafe)
      rw [hb] at he
      dsimp only at he
      by_cases hcond : (b && (mergeOptions hOpts context.middlewareControl).shouldRetry
          (mergeOptions hOpts context.middlewareControl).delay 0 context.request
          context.options resp) = true
      · rw [if_pos hcond] at he
        dsimp only at he
        rw [RetryHandler.executeWithRetry_stop env hOpts _ 1
          (mergeOptions hOpts context.middlewareControl) 1 (by omega)] at he
        cases hnext1 : env.next 1 with
        | error id =>
          rw [hnext1] at he
          dsimp only at he
          exact ⟨id, (Except.error.inj he).symm, 1, hnext1⟩
        | ok resp1 =>
          rw [hnext1] at he
          dsimp only at he
          exact Except.noConfusion he
      · rw [if_neg hcond] at he
        dsimp only at he
        exact Except.noConfusion he
    · rw [dif_neg hc] at he
      dsimp only at he
      exact Except.noConfusion he

/-- An environment whose delegate always throws failure 5. -/
def c7wEnv : MiddlewareEnv :=
  { next := fun _ => .error 5
    rand := fun _ => 0
    dateParse := noDate
    now := 0 }

/-- A safe context for the C7 witness: a rich POST `Request` object. -/
def c7wCtx : Context := { request := .request RequestMethod.POST [] }

/-- Witness for C7 (amended) at a concrete input: the delegate throws
failure 5 and the only failure `execute` can report is exactly it. -/
theorem C7_witness :
    ∃ id, JsError.delegateErr 5 = JsError.delegateErr id ∧
      ∃ n, c7wEnv.next n = .error id :=
  C7_failures_are_delegate_failures c7wEnv defaultRetryHandlerOptions c7wCtx rfl
    (JsError.delegateErr 5)
    (by
      rw [show RetryHandler.execute c7wEnv defaultRetryHandlerOptions c7wCtx =
          RetryHandler.executeWithRetry c7wEnv defaultRetryHandlerOptions c7wCtx 0
            defaultRetryHandlerOptions 0 from rfl,
        RetryHandler.executeWithRetry_stop c7wEnv defaultRetryHandlerOptions c7wCtx 0
          defaultRetryHandlerOptions 0 (by decide)]
      rfl)

/-! ## Claim C8 -/

/-- Claim C8: building the effective per-call configuration never mutates
the handler's stored options object — the two `Object.assign` calls write
only into the freshly allocated copy. After `buildEffectiveOptions`, the
object at `thisRef` is unchanged, the returned reference is distinct from
`thisRef`, and the fresh object holds exactly the merged configuration. -/
theorem C8_shared_default_not_mutated (store : OptionsStore) (thisRef : ℕ)
    (ov : Option RetryOverride) (h : thisRef < store.length) :
    OptionsStore.get? (RetryHandler.buildEffectiveOptions store thisRef ov).1 thisRef =
        OptionsStore.get? store thisRef ∧
      (RetryHandler.buildEffectiveOptions store thisRef ov).2 ≠ thisRef ∧
      OptionsStore.get? (RetryHandler.buildEffectiveOptions store thisRef ov).1
          (RetryHandler.buildEffectiveOptions store thisRef ov).2 =
        (OptionsStore.get? store thisRef).map (fun src => mergeOptions src ov) := by
  have h1 : OptionsStore.get? (store ++ [defaultRetryHandlerOptions]) thisRef =
      some store[thisRef] := by
    unfold OptionsStore.get?
    rw [List.getElem?_append, if_pos h, List.getElem?_eq_getElem h]
  have hlen1 : store.length < (store ++ [defaultRetryHandlerOptions]).length := by
    simp
  unfold RetryHandler.buildEffectiveOptions
  dsimp only
  rw [h1]
  dsimp only
  have h2 : OptionsStore.get?
      ((store ++ [defaultRetryHandlerOptions]).set store.length store[thisRef])
      store.length = some store[thisRef] := by
    unfold OptionsStore.get?
    exact List.getElem?_set_eq_of_lt _ hlen1
  have hget : OptionsStore.get? store thisRef = some store[thisRef] :=
    List.getElem?_eq_getElem h
  cases ov with
  | none =>
    dsimp only
    refine ⟨?_, by omega, ?_⟩
    · unfold OptionsStore.get?
      rw [List.getElem?_set_ne (by omega), List.getElem?_append, if_pos h]
    · rw [h2, hget]
      rfl
  | some o =>
    dsimp only
    rw [h2]
    dsimp only
    refine ⟨?_, by omega, ?_⟩
    · unfold OptionsStore.get?
      rw [List.getElem?_set_ne (by omega), List.getElem?_set_ne (by omega),
        List.getElem?_append, if_pos h]
    · have h3 : OptionsStore.get?
          (((store ++ [defaultRetryHandlerOptions]).set store.length store[thisRef]).set
            store.length (applyOverride store[thisRef] o)) store.length =
          some (applyOverride store[thisRef] o) := by
        unfold OptionsStore.get?
        exact List.getElem?_set_eq_of_lt _ (by simp)
      rw [h3, hget]
      rfl

/-- A one-object store for the C8 witness. -/
def c8Store : OptionsStore := [defaultRetryHandlerOptions]

/-- A per-call override raising the budget, for the C8 witness. -/
def c8Override : RetryOverride := { maxRetries := some 5 }

/-- Witness for C8 at a concrete input: merging an override over the single
stored default leaves the stored default untouched. -/
theorem C8_witness :
    (0 < c8Store.length) ∧
      (OptionsStore.get? (RetryHandler.buildEffectiveOptions c8Store 0 (some c8Override)).1 0 =
          OptionsStore.get? c8Store 0 ∧
        (RetryHandler.buildEffectiveOptions c8Store 0 (some c8Override)).2 ≠ 0 ∧
        OptionsStore.get? (RetryHandler.buildEffectiveOptions c8Store 0 (some c8Override)).1
            (RetryHandler.buildEffectiveOptions c8Store 0 (some c8Override)).2 =
          (OptionsStore.get? c8Store 0).map (fun src => mergeOptions src (some c8Override))) :=
  ⟨by decide, C8_shared_default_not_mutated c8Store 0 (some c8Override) (by decide)⟩

/-- One unfolding of `executeWithRetry` when the gate and the status check
pass and `isBuffered` answers, but the payload/predicate conjunction is
false: no retry, the run completes with the obtained response. -/
theorem RetryHandler.executeWithRetry_noRetry (env : MiddlewareEnv)
    (hOpts : RetryHandlerOptions) (context : Context) (retryAttempts : ℕ)
    (options : RetryHandlerOptions) (callIdx : ℕ) (resp : Response) (b : Bool)
    (hnext : env.next callIdx = .ok resp)
    (heq : options.maxRetries = retryAttempts)
    (hretry : RetryHandler.isRetry resp = true)
    (hbuf : RetryHandler.isBuffered context.request context.options resp = .ok b)
    (hcond : (b && options.shouldRetry options.delay retryAttempts context.request
      context.options resp) = false) :
    RetryHandler.executeWithRetry env hOpts context retryAttempts options callIdx =
      ⟨1, [], .ok { context with response := some resp }⟩ := by
  rw [RetryHandler.executeWithRetry, hnext]
  dsimp only
  rw [dif_pos (And.intro heq hretry), hbuf]
  dsimp only
  rw [hcond]
  rfl

/-! ## Claim C10 -/

/-- Changing the `maxDelay` of the effective per-call configuration and the
override bag recorded on the context has no effect on the observable retry
behaviour (delegate invocation count and slept delays): the delay cap read
inside `getDelay` is `hOpts.maxDelay`, the one of the options the handler
was constructed with. -/
theorem RetryHandler.executeWithRetry_maxDelay_irrelevant (env : MiddlewareEnv)
    (hOpts : RetryHandlerOptions) (context : Context) (mc : Option RetryOverride)
    (retryAttempts : ℕ) (options : RetryHandlerOptions) (md : ℚ) (callIdx : ℕ) :
    ((RetryHandler.executeWithRetry env hOpts { context with middlewareControl := mc }
        retryAttempts { options with maxDelay := md } callIdx).calls =
      (RetryHandler.executeWithRetry env hOpts context retryAttempts options
        callIdx).calls) ∧
    ((RetryHandler.executeWithRetry env hOpts { context with middlewareControl := mc }
        retryAttempts { options with maxDelay := md } callIdx).sleeps =
      (RetryHandler.executeWithRetry env hOpts context retryAttempts options
        callIdx).sleeps) := by
  cases hnext : env.next callIdx with
  | error e =>
    rw [RetryHandler.executeWithRetry, hnext]
    rw [RetryHandler.executeWithRetry, hnext]
    exact ⟨rfl, rfl⟩
  | ok resp =>
    by_cases hc : options.maxRetries = retryAttempts ∧ RetryHandler.isRetry resp = true
    · cases hbuf : RetryHandler.isBuffered context.request context.options resp with
      | error err =>
        rw [RetryHandler.executeWithRetry_bufErr env hOpts context retryAttempts options
          callIdx resp err hnext hc.1 hc.2 hbuf]
        rw [RetryHandler.executeWithRetry_bufErr env hOpts
          { context with middlewareControl := mc } retryAttempts
          { options with maxDelay := md } callIdx resp err hnext hc.1 hc.2 hbuf]
        exact ⟨rfl, rfl⟩
      | ok b =>
        by_cases hcond : (b && options.shouldRetry options.delay retryAttempts
            context.request context.options resp) = true
        · rw [RetryHandler.executeWithRetry_retry env hOpts context retryAttempts options
            callIdx resp hnext hc.1 hc.2 (by rw [hbuf, (Bool.and_eq_true _ _).mp hcond |>.1])
            ((Bool.and_eq_true _ _).mp hcond).2]
          rw [RetryHandler.executeWithRetry_retry env hOpts
            { context with middlewareControl := mc } retryAttempts
            { options with maxDelay := md } callIdx resp hnext hc.1 hc.2
            (by rw [hbuf, (Bool.and_eq_true _ _).mp hcond |>.1])
            ((Bool.and_eq_true _ _).mp hcond).2]
          have hne : ({ options with maxDelay := md } : RetryHandlerOptions).maxRetries ≠
              retryAttempts + 1 := by
            have := hc.1
            dsimp only at this ⊢
            omega
          rw [RetryHandler.executeWithRetry_stop env hOpts _ (retryAttempts + 1)
            { options with maxDelay := md } (callIdx + 1) hne]
          rw [RetryHandler.executeWithRetry_stop env hOpts _ (retryAttempts + 1) options
            (callIdx + 1) (by have := hc.1; omega)]
          cases hnext1 : env.next (callIdx + 1) <;> exact ⟨rfl, rfl⟩
        · rw [RetryHandler.executeWithRetry_noRetry env hOpts context retryAttempts options
            callIdx resp b hnext hc.1 hc.2 hbuf (Bool.not_eq_true _ ▸ hcond)]
          rw [RetryHandler.executeWithRetry_noRetry env hOpts
            { context with middlewareControl := mc } retryAttempts
            { options with maxDelay := md } callIdx resp b hnext hc.1 hc.2 hbuf
            (Bool.not_eq_true _ ▸ hcond)]
          exact ⟨rfl, rfl⟩
    · rw [RetryHandler.executeWithRetry, hnext]
      rw [RetryHandler.executeWithRetry, hnext]
      dsimp only
      rw [dif_neg hc, dif_neg hc]
      exact ⟨rfl, rfl⟩

/-- A chunked 429 response carrying Retry-After 50, for scenario A of C10. -/
def c10RespA : Response :=
  { status := 429, headers := some [("Transfer-Encoding", "chunked"), ("Retry-After", "50")] }

/-- Environment for scenario A of C10. -/
def c10EnvA : MiddlewareEnv :=
  { next := fun _ => .ok c10RespA
    rand := fun _ => 0
    dateParse := noDate
    now := 0 }

/-- Constructor options for scenario A of C10: cap 10, zero budget. -/
def c10OptsA : RetryHandlerOptions :=
  { maxRetries := 0
    delay := 3
    maxDelay := 10
    shouldRetry := fun _ _ _ _ _ => true }

/-- Per-call override for scenario A of C10: cap lowered to 1. -/
def c10OvA : RetryOverride := { maxDelay := some 1 }

/-- Context for scenario A of C10. -/
def c10CtxA : Context :=
  { request := .request RequestMethod.POST [], middlewareControl := some c10OvA }

/-- A chunked 429 response without Retry-After, for scenarios B and C. -/
def c10RespB : Response := { status := 429, headers := some [("Transfer-Encoding", "chunked")] }

/-- Environment for scenarios B and C of C10. -/
def c10EnvB : MiddlewareEnv :=
  { next := fun _ => .ok c10RespB
    rand := fun _ => 0
    dateParse := noDate
    now := 0 }

/-- Constructor options for scenario B of C10: budget 5, base delay 3. -/
def c10OptsB : RetryHandlerOptions :=
  { maxRetries := 5
    delay := 3
    maxDelay := 100
    shouldRetry := fun _ _ _ _ _ => true }

/-- Per-call override for scenario B of C10: budget 0, base delay 5 — both
take effect. -/
def c10OvB : RetryOverride := { maxRetries := some 0, delay := some 5 }

/-- Context for scenario B of C10. -/
def c10CtxB : Context :=
  { request := .request RequestMethod.POST [], middlewareControl := some c10OvB }

/-- Constructor options for scenario C of C10: zero budget. -/
def c10OptsC : RetryHandlerOptions :=
  { maxRetries := 0
    delay := 3
    maxDelay := 100
    shouldRetry := fun _ _ _ _ _ => true }

/-- Per-call override for scenario C of C10: a vetoing predicate — it takes
effect. -/
def c10OvC : RetryOverride := { shouldRetry := some (fun _ _ _ _ _ => false) }

/-- Context for scenario C of C10. -/
def c10CtxC : Context :=
  { request := .request RequestMethod.POST [], middlewareControl := some c10OvC }

/-- Claim C10: the delay cap applied inside `getDelay` is always the
`maxDelay` of the options the handler was constructed with, never the
merged per-call configuration: a per-call `maxDelay` override changes
nothing observable (first conjunct, fully general), and concretely a run
with constructor cap 10, override cap 1 and Retry-After 50 sleeps exactly
10 (scenario A) — while per-call overrides of `maxRetries` and `delay`
(scenario B: override budget 0 triggers the gate, override base delay 5 is
slept) and of `shouldRetry` (scenario C: a vetoing override suppresses the
retry) do take effect in the same call. -/
theorem C10_cap_from_constructor_options :
    (∀ (env : MiddlewareEnv) (hOpts : RetryHandlerOptions) (context : Context)
        (ov : RetryOverride) (md : ℚ),
        ((RetryHandler.execute env hOpts
            { context with middlewareControl := some { ov with maxDelay := some md } }).calls =
          (RetryHandler.execute env hOpts
            { context with middlewareControl := some ov }).calls) ∧
        ((RetryHandler.execute env hOpts
            { context with middlewareControl := some { ov with maxDelay := some md } }).sleeps =
          (RetryHandler.execute env hOpts
            { context with middlewareControl := some ov }).sleeps))
    ∧ (RetryHandler.execute c10EnvA c10OptsA c10CtxA).sleeps = [.fin 10]
    ∧ (RetryHandler.execute c10EnvB c10OptsB c10CtxB).sleeps = [.fin 5]
    ∧ (RetryHandler.execute c10EnvB c10OptsC c10CtxC).calls = 1 := by
  refine ⟨?_, ?_, ?_, ?_⟩
  · intro env hOpts context ov md
    exact RetryHandler.executeWithRetry_maxDelay_irrelevant env hOpts
      { context with middlewareControl := some ov } (some { ov with maxDelay := some md }) 0
      (mergeOptions hOpts (some ov)) md 0
  · have hB : RetryHandler.execute c10EnvA c10OptsA c10CtxA =
        RetryHandler.executeWithRetry c10EnvA c10OptsA c10CtxA 0
          (mergeOptions c10OptsA c10CtxA.middlewareControl) 0 := rfl
    have hstep := RetryHandler.executeWithRetry_retry c10EnvA c10OptsA c10CtxA 0
      (mergeOptions c10OptsA c10CtxA.middlewareControl) 0 c10RespA rfl rfl rfl rfl rfl
    have hrest := RetryHandler.executeWithRetry_stop c10EnvA c10OptsA
      (retryStepContext c10CtxA c10RespA 1) 1
      (mergeOptions c10OptsA c10CtxA.middlewareControl) 1 (by decide)
    have h50 : jsToNumber "50" = .fin 50 := by
      simp [jsToNumber, trimJsWs, isJsWhiteSpace, jsStrDecimal, jsUnsignedPart, readDecWithExp,
        readUnsignedDecimal, readSignedInt, readDigits, splitFirst, decDigit?, toJSNum]
    have hdelay : RetryHandler.getDelay c10RespA (0 + 1)
        (mergeOptions c10OptsA c10CtxA.middlewareControl).delay c10OptsA.maxDelay
        (c10EnvA.rand (0 + 1)) c10EnvA.dateParse c10EnvA.now = .fin 10 := by
      unfold RetryHandler.getDelay
      rw [RetryHandler.preCapDelay_of_header c10RespA (0 + 1)
        (mergeOptions c10OptsA c10CtxA.middlewareControl).delay (c10EnvA.rand (0 + 1))
        c10EnvA.dateParse c10EnvA.now "50" rfl, h50]
      show jsMin (.fin 50) (.fin c10OptsA.maxDelay) = .fin 10
      show JSNum.fin (min 50 c10OptsA.maxDelay) = .fin 10
      rw [show c10OptsA.maxDelay = 10 from rfl, min_eq_right (by norm_num : (10 : ℚ) ≤ 50)]
    rw [hB, hstep]
    dsimp only
    rw [hrest, hdelay]
    rfl
  · have hB : RetryHandler.execute c10EnvB c10OptsB c10CtxB =
        RetryHandler.executeWithRetry c10EnvB c10OptsB c10CtxB 0
          (mergeOptions c10OptsB c10CtxB.middlewareControl) 0 := rfl
    have hstep := RetryHandler.executeWithRetry_retry c10EnvB c10OptsB c10CtxB 0
      (mergeOptions c10OptsB c10CtxB.middlewareControl) 0 c10RespB rfl rfl rfl rfl rfl
    have hrest := RetryHandler.executeWithRetry_stop c10EnvB c10OptsB
      (retryStepContext c10CtxB c10RespB 1) 1
      (mergeOptions c10OptsB c10CtxB.middlewareControl) 1 (by decide)
    have hdelay : RetryHandler.getDelay c10RespB (0 + 1)
        (mergeOptions c10OptsB c10CtxB.middlewareControl).delay c10OptsB.maxDelay
        (c10EnvB.rand (0 + 1)) c10EnvB.dateParse c10EnvB.now = .fin 5 := by
      unfold RetryHandler.getDelay
      rw [RetryHandler.preCapDelay_of_no_header c10RespB (0 + 1)
        (mergeOptions c10OptsB c10CtxB.middlewareControl).delay (c10EnvB.rand (0 + 1))
        c10EnvB.dateParse c10EnvB.now rfl]
      have hback : RetryHandler.getExponentialBackOffTime (0 + 1) (c10EnvB.rand (0 + 1)) *
          (mergeOptions c10OptsB c10CtxB.middlewareControl).delay = 5 := by
        show RetryHandler.getExponentialBackOffTime 1 0 * 5 = 5
        norm_num [RetryHandler.getExponentialBackOffTime, jsRound]
      rw [hback]
      show JSNum.fin (min 5 c10OptsB.maxDelay) = .fin 5
      rw [show c10OptsB.maxDelay = 100 from rfl, min_eq_left (by norm_num : (5 : ℚ) ≤ 100)]
    rw [hB, hstep]
    dsimp only
    rw [hrest, hdelay]
    rfl
  · have hB : RetryHandler.execute c10EnvB c10OptsC c10CtxC =
        RetryHandler.executeWithRetry c10EnvB c10OptsC c10CtxC 0
          (mergeOptions c10OptsC c10CtxC.middlewareControl) 0 := rfl
    rw [hB, RetryHandler.executeWithRetry_noRetry c10EnvB c10OptsC c10CtxC 0
      (mergeOptions c10OptsC c10CtxC.middlewareControl) 0 c10RespB true rfl rfl rfl rfl rfl]
